import Mathlib

/-!
Shallow embedding of the consensus networkstatus subsystem
(src/feature/nodelist/networkstatus.c) and proofs about it.

Conventions:
* `time_t` values are `Int`; byte strings are `List Nat` (each entry a byte).
* Digests (`common_digests_t`, identity digests, signing-key digests) are
  abstracted as `Nat` tokens; equality of tokens models `tor_memeq` of the
  digest bytes.
* External collaborators (parser, RSA verification, certificate store,
  authority list) are supplied through an explicit environment `DirEnv`,
  mirroring the C code's calls into other modules.
* Logging, control-port events, notification fan-out, download-status
  bookkeeping and the protocol-version warning (which only logs or exits the
  process) are effect-free for the properties below and are not represented.
-/

namespace TorNS

/-- `static const unsigned char simple_key = 0xAA;` (networkstatus.c:121). -/
def simple_key : Nat := 0xAA

/-- `xor_encrypt` (networkstatus.c:438-442): per-byte XOR of the buffer with
`simple_key`. -/
def xor_encrypt (data : List Nat) : List Nat :=
  data.map (fun b => b ^^^ simple_key)

/-- `consensus_flavor_t`: the two consensus flavors `FLAV_NS` and
`FLAV_MICRODESC`. -/
inductive ConsensusFlavor : Type where
  | ns : ConsensusFlavor
  | microdesc : ConsensusFlavor
deriving DecidableEq, Repr

/-- `networkstatus_get_flavor_name` (networkstatus.c:2686-2698). -/
def networkstatus_get_flavor_name : ConsensusFlavor → String
  | .ns => "ns"
  | .microdesc => "microdesc"

/-- `networkstatus_parse_flavor_name` (networkstatus.c:2702-2711); `none`
models the C return value -1. -/
def networkstatus_parse_flavor_name (flavname : String) : Option ConsensusFlavor :=
  if flavname = "ns" then some .ns
  else if flavname = "microdesc" then some .microdesc
  else none

/-- `networkstatus_get_cache_fname` (networkstatus.c:235-254).  The
surrounding cache-directory path added by `get_cachedir_fname` is external
state; we model the flavor-and-tag-determined file name. -/
def networkstatus_get_cache_fname (flav : ConsensusFlavor) (flavorname : String)
    (unverified_consensus : Bool) : String :=
  let pfx := if unverified_consensus then "unverified" else "cached"
  if flav = .ns then pfx ++ "-consensus"
  else pfx ++ "-" ++ flavorname ++ "-consensus"

/-- One `document_signature_t` attached to a voter: its identity and
signing-key digests, the sticky `good_signature`/`bad_signature` flags, whether
`sig->signature` is non-NULL, and (as the outcome of the external RSA check
`crypto_pk_public_checksig` against the document digest) whether the signature
bytes verify. -/
structure DocumentSignature : Type where
  identity_digest : Nat
  signing_key_digest : Nat
  good_signature : Bool
  bad_signature : Bool
  has_signature : Bool
  verifies : Bool
deriving DecidableEq, Repr

/-- One `networkstatus_voter_info_t`: identity digest plus signatures. -/
structure VoterInfo : Type where
  identity_digest : Nat
  sigs : List DocumentSignature
deriving DecidableEq, Repr

/-- An `authority_cert_t` as seen by the signature checker: its expiry time,
whether the digests re-derived from the certificate match the signature's
(`networkstatus_check_document_signature` returns -1 otherwise), and whether
the signing key is denylisted. -/
structure AuthorityCert : Type where
  expires : Int
  key_matches : Bool
  denylisted : Bool
deriving DecidableEq, Repr

/-- A consensus document, restricted to the fields the verified properties
need (`networkstatus_t` with `type == NS_TYPE_CONSENSUS`). `digests` stands
for the document's `common_digests_t` value. -/
structure Document : Type where
  flavor : ConsensusFlavor
  valid_after : Int
  valid_until : Int
  digests : Nat
  voters : List VoterInfo
deriving DecidableEq, Repr

/-- The external directory environment: the configured v3 authorities
(`router_get_trusted_dir_servers` restricted to `V3_DIRINFO`, listed by v3
identity digest), the certificate store (`authority_cert_get_by_digests`), and
the parser (`networkstatus_parse_vote_from_string`). -/
structure DirEnv : Type where
  authorities : List Nat
  cert : Nat → Nat → Option AuthorityCert
  parse : List Nat → Option Document

/-- Outcome bucket of one signature inside the checking loop of
`networkstatus_check_consensus_signature` (networkstatus.c:557-592). -/
inductive SigCat : Type where
  | good : SigCat
  | bad : SigCat
  | missingKey : SigCat
  | unknown : SigCat
  | nosig : SigCat
deriving DecidableEq, Repr

/-- Category a single signature lands in, following networkstatus.c:557-592:
an unchecked signature (`!good && !bad && signature`) is checked now — an
unrecognized identity counts `unknown`, a missing/expired/mismatched
certificate counts `missingKey`, a denylisted key is forced `bad`
(networkstatus.c:494-503), otherwise the RSA check marks it `good` or `bad`
(networkstatus.c:505-517); an already-flagged signature keeps its flag. -/
def sig_category (env : DirEnv) (now : Int) (s : DocumentSignature) : SigCat :=
  if s.good_signature = false ∧ s.bad_signature = false ∧ s.has_signature = true then
    if s.identity_digest ∈ env.authorities then
      match env.cert s.identity_digest s.signing_key_digest with
      | none => .missingKey
      | some cert =>
        if cert.expires < now then .missingKey
        else if cert.key_matches = false then .missingKey
        else if cert.denylisted then .bad
        else if s.verifies then .good else .bad
    else .unknown
  else if s.good_signature then .good
  else if s.bad_signature then .bad
  else .nosig

/-- Bucket a voter contributes to (networkstatus.c:594-608): within a voter,
good > bad > missing-key > unrecognized > no-signature, and a voter
contributes to exactly one bucket. -/
def voter_category (env : DirEnv) (now : Int) (v : VoterInfo) : SigCat :=
  if v.sigs.any (fun s => sig_category env now s = .good) then .good
  else if v.sigs.any (fun s => sig_category env now s = .bad) then .bad
  else if v.sigs.any (fun s => sig_category env now s = .missingKey) then .missingKey
  else if v.sigs.any (fun s => sig_category env now s = .unknown) then .unknown
  else .nosig

/-- `n_good` of `networkstatus_check_consensus_signature`. -/
def n_good (env : DirEnv) (now : Int) (doc : Document) : Nat :=
  (doc.voters.filter (fun v => voter_category env now v = .good)).length

/-- `n_missing_key` of `networkstatus_check_consensus_signature`. -/
def n_missing_key (env : DirEnv) (now : Int) (doc : Document) : Nat :=
  (doc.voters.filter (fun v => voter_category env now v = .missingKey)).length

/-- `networkstatus_check_consensus_signature` (networkstatus.c:530-707),
reduced to its return value: with `n_v3_authorities = get_n_authorities` and
`n_required = n_v3_authorities/2 + 1`, return 1 / 0 / -1 / -2 following
networkstatus.c:699-706.  (1 = FullyVerified, 0 = QuorumVerified,
-1 = NeedsMoreCerts, -2 = Insufficient.) -/
def networkstatus_check_consensus_signature (env : DirEnv) (now : Int)
    (doc : Document) : Int :=
  if n_good env now doc = env.authorities.length then 1
  else if n_good env now doc ≥ env.authorities.length / 2 + 1 then 0
  else if n_good env now doc + n_missing_key env now doc ≥
          env.authorities.length / 2 + 1 then -1
  else -2

/-- `consensus_waiting_for_certs_t` (one slot of the per-flavor array at
networkstatus.c:148-149). -/
structure WaitingSlot : Type where
  consensus : Option Document
  set_at : Int
  dl_failed : Bool
deriving DecidableEq, Repr

/-- The empty waiter slot (zero-initialized C global). -/
def emptyWaitingSlot : WaitingSlot := ⟨none, 0, false⟩

/-- `DELAY_WHILE_FETCHING_CERTS` (networkstatus.c:928): 20 minutes. -/
def DELAY_WHILE_FETCHING_CERTS : Int := 20 * 60

/-- `MIN_DELAY_FOR_FETCH_CERT_STATUS_FAILURE` (networkstatus.c:932): 60 s. -/
def MIN_DELAY_FOR_FETCH_CERT_STATUS_FAILURE : Int := 1 * 60

/-- `check_consensus_waiting_for_certs` (networkstatus.c:939-966).  Returns
the C return value (1 = still waiting, 0 = not), the updated waiter slot, and
whether `download_status_failed(dls, 0)` was invoked on the supplied download
schedule. -/
def check_consensus_waiting_for_certs (w : WaitingSlot) (now : Int) :
    Int × WaitingSlot × Bool :=
  match w.consensus with
  | none => (0, w, false)
  | some c =>
    if w.set_at + DELAY_WHILE_FETCHING_CERTS > now ∧ c.valid_until > now then
      (1, w, false)
    else if w.dl_failed = false then
      (0, { w with dl_failed := true },
        decide (w.set_at + MIN_DELAY_FOR_FETCH_CERT_STATUS_FAILURE > now))
    else
      (0, w, false)

/-- The mutable globals of networkstatus.c that the verified properties
touch: the per-flavor current consensus (`current_ns_consensus`,
`current_md_consensus`), the per-flavor certificate-waiter slots, and the
per-flavor on-disk cache file contents (`cached-*-consensus` and
`unverified-*-consensus`; `none` = file absent). -/
structure NsState : Type where
  current_ns : Option Document
  current_md : Option Document
  waiting_ns : WaitingSlot
  waiting_md : WaitingSlot
  vfile_ns : Option (List Nat)
  vfile_md : Option (List Nat)
  ufile_ns : Option (List Nat)
  ufile_md : Option (List Nat)
deriving DecidableEq, Repr

/-- The all-empty startup state. -/
def emptyNsState : NsState :=
  ⟨none, none, emptyWaitingSlot, emptyWaitingSlot, none, none, none, none⟩

/-- `networkstatus_get_latest_consensus_by_flavor` (networkstatus.c:1420-1431)
restricted to the two valid flavors. -/
def currentFor (st : NsState) : ConsensusFlavor → Option Document
  | .ns => st.current_ns
  | .microdesc => st.current_md

/-- Read the waiter slot `consensus_waiting_for_certs[flavor]`. -/
def waitingFor (st : NsState) : ConsensusFlavor → WaitingSlot
  | .ns => st.waiting_ns
  | .microdesc => st.waiting_md

/-- Content of the flavor's verified cache file (`cached-*-consensus`). -/
def vfileFor (st : NsState) : ConsensusFlavor → Option (List Nat)
  | .ns => st.vfile_ns
  | .microdesc => st.vfile_md

/-- Content of the flavor's unverified cache file
(`unverified-*-consensus`). -/
def ufileFor (st : NsState) : ConsensusFlavor → Option (List Nat)
  | .ns => st.ufile_ns
  | .microdesc => st.ufile_md

/-- Assign the current-consensus slot of a flavor. -/
def setCurrent (st : NsState) (f : ConsensusFlavor) (v : Option Document) : NsState :=
  match f with
  | .ns => { st with current_ns := v }
  | .microdesc => { st with current_md := v }

/-- Assign the waiter slot of a flavor. -/
def setWaiting (st : NsState) (f : ConsensusFlavor) (w : WaitingSlot) : NsState :=
  match f with
  | .ns => { st with waiting_ns := w }
  | .microdesc => { st with waiting_md := w }

/-- Assign the verified cache file of a flavor. -/
def setVfile (st : NsState) (f : ConsensusFlavor) (v : Option (List Nat)) : NsState :=
  match f with
  | .ns => { st with vfile_ns := v }
  | .microdesc => { st with vfile_md := v }

/-- Assign the unverified cache file of a flavor. -/
def setUfile (st : NsState) (f : ConsensusFlavor) (v : Option (List Nat)) : NsState :=
  match f with
  | .ns => { st with ufile_ns := v }
  | .microdesc => { st with ufile_md := v }

/-- The option inputs `networkstatus_set_current_consensus` consults:
`usable_consensus_flavor()` and `we_want_to_fetch_flavor(options, ·)`. -/
structure NsOptions : Type where
  usable_flavor : ConsensusFlavor
  want_flavor : ConsensusFlavor → Bool

/-- The `NSSET_*` flag bits passed to `networkstatus_set_current_consensus`. -/
structure NsFlags : Type where
  from_cache : Bool
  was_waiting_for_certs : Bool
  accept_obsolete : Bool
  require_flavor : Bool
deriving DecidableEq, Repr

/-- `OLD_ROUTER_DESC_MAX_AGE`, five days.  The macro lives in a header outside
this repository's sources; the value is the one the spec's
`MAX_EXPIRED_CACHE_AGE` rule refers to and does not affect any verified
property (witnesses use fresh, non-cache installs). -/
def OLD_ROUTER_DESC_MAX_AGE : Int := 60 * 60 * 24 * 5

/-- The certificate-waiter parking step of
`networkstatus_set_current_consensus` (networkstatus.c:2130-2146): the waiter
slot for the flavor is replaced by the new document with `set_at = now` and
`dl_failed = 0`, and — unless the document came from the cache — the
unverified cache file is written with the XOR-obfuscated received bytes. -/
def park_branch (st : NsState) (flav : ConsensusFlavor) (c : Document)
    (consensus : List Nat) (flags : NsFlags) (now : Int) : NsState :=
  if flags.from_cache = false then
    setUfile (setWaiting st flav ⟨some c, now, false⟩) flav
      (some (xor_encrypt consensus))
  else setWaiting st flav ⟨some c, now, false⟩

/-- The `unlink(unverified_fname)` performed on the not-parked and
never-verifiable failure paths when the document was a cached unverified
consensus (networkstatus.c:2155-2160 and 2170-2176). -/
def clear_unverified_if_was_waiting (st : NsState) (flav : ConsensusFlavor)
    (flags : NsFlags) : NsState :=
  if flags.was_waiting_for_certs = true ∧ flags.from_cache = true then
    setUfile st flav none
  else st

/-- The promotion step at networkstatus.c:2182-2188: when a cached unverified
consensus has just verified, `tor_rename(unverified_fname, consensus_fname)`
moves the unverified cache file over the verified one. -/
def promote_unverified (st : NsState) (flav : ConsensusFlavor)
    (flags : NsFlags) : NsState :=
  if flags.from_cache = true ∧ flags.was_waiting_for_certs = true then
    setUfile (setVfile st flav (ufileFor st flav)) flav none
  else st

/-- The waiter-clearing step at networkstatus.c:2231-2243: when the parked
document's `valid_after` is at most the newly installed document's, empty the
waiter slot and unlink the unverified cache file. -/
def clear_waiter_if_older (st : NsState) (flav : ConsensusFlavor)
    (c : Document) : NsState :=
  match (waitingFor st flav).consensus with
  | some w =>
    if w.valid_after ≤ c.valid_after then
      setUfile (setWaiting st flav emptyWaitingSlot) flav none
    else st
  | none => st

/-- The successful-install tail of `networkstatus_set_current_consensus`
(networkstatus.c:2181-2280): promote the unverified file over the verified one
when a cached unverified consensus just verified, replace the
current-consensus slot, clear the waiter when its document is at most as new,
and — for a fresh document — write the verified cache file with the
XOR-obfuscated received bytes (networkstatus.c:2272-2280). -/
def install_full (st : NsState) (flav : ConsensusFlavor) (c : Document)
    (consensus : List Nat) (flags : NsFlags) : NsState :=
  if flags.from_cache = false then
    setVfile (clear_waiter_if_older
        (setCurrent (promote_unverified st flav flags) flav (some c)) flav c)
      flav (some (xor_encrypt consensus))
  else
    clear_waiter_if_older
      (setCurrent (promote_unverified st flav flags) flav (some c)) flav c

/-- `networkstatus_set_current_consensus` (networkstatus.c:2012-2296),
reduced to its return value and its effect on the state in `NsState`.
`consensus` is the raw byte string received; parsing, certificate fetches,
notifications, download-status bookkeeping, the control-port event and the
dirserv/consdiffmgr hand-off are delegated to the environment or are
effect-free here.  The branch structure and the branch conditions follow the
C function line by line; in particular:
* `current_valid_after` is 0 when no consensus is installed for the flavor
  (the C local is initialized to 0 and only assigned under
  `if (current_ns_consensus)` / `if (current_md_consensus)`);
* the cache files are written with `xor_encrypt` applied to the received
  bytes (networkstatus.c:2138-2146 and 2272-2280);
* a fresh enough NeedsMoreCerts document unconditionally replaces the
  waiter slot (`park_branch`, networkstatus.c:2130-2146);
* on install, the waiter is cleared when its document's `valid_after` is at
  most the new document's (`install_full`, networkstatus.c:2231-2243). -/
def networkstatus_set_current_consensus (env : DirEnv) (opts : NsOptions)
    (st : NsState) (consensus : List Nat) (flavor : String)
    (flags : NsFlags) (now : Int) : Int × NsState :=
  match networkstatus_parse_flavor_name flavor with
  | none => (-2, st)
  | some flav0 =>
    match env.parse consensus with
    | none => (-2, st)
    | some c =>
      if c.flavor ≠ flav0 ∧ flags.require_flavor = true then (-1, st)
      else
      let flav := c.flavor
      if flav ≠ opts.usable_flavor ∧ opts.want_flavor flav = false then (-1, st)
      else if flags.from_cache = true ∧ flags.accept_obsolete = false ∧
              c.valid_until < now - OLD_ROUTER_DESC_MAX_AGE then (-1, st)
      else
      let current_valid_after : Int :=
        match currentFor st flav with
        | some d => d.valid_after
        | none => 0
      if (currentFor st flav).map Document.digests = some c.digests then (-1, st)
      else if current_valid_after ≠ 0 ∧ c.valid_after ≤ current_valid_after then (-1, st)
      else
      let r := networkstatus_check_consensus_signature env now c
      if r = -1 then
        if current_valid_after = 0 ∨ c.valid_after > current_valid_after then
          (0, park_branch st flav c consensus flags now)
        else
          (-1, clear_unverified_if_was_waiting st flav flags)
      else if r < -1 then
        (if flags.was_waiting_for_certs = false then -2 else -1,
         clear_unverified_if_was_waiting st flav flags)
      else
        (0, install_full st flav c consensus flags)

/-- `REASONABLY_LIVE_TIME` (networkstatus.c:1472): 24 hours. -/
def REASONABLY_LIVE_TIME : Int := 24 * 60 * 60

/-- `networkstatus_valid_after_is_reasonably_live` (networkstatus.c:1477-1482). -/
def networkstatus_valid_after_is_reasonably_live (valid_after now : Int) : Bool :=
  decide (now ≥ valid_after - REASONABLY_LIVE_TIME)

/-- `networkstatus_valid_until_is_reasonably_live` (networkstatus.c:1487-1492). -/
def networkstatus_valid_until_is_reasonably_live (valid_until now : Int) : Bool :=
  decide (now ≤ valid_until + REASONABLY_LIVE_TIME)

/-- `networkstatus_consensus_reasonably_live` (networkstatus.c:1459-1470). -/
def networkstatus_consensus_reasonably_live (c : Document) (now : Int) : Bool :=
  networkstatus_valid_after_is_reasonably_live c.valid_after now &&
  networkstatus_valid_until_is_reasonably_live c.valid_until now

/-- `networkstatus_get_reasonably_live_consensus` (networkstatus.c:1496-1506). -/
def networkstatus_get_reasonably_live_consensus (st : NsState) (now : Int)
    (flavor : ConsensusFlavor) : Option Document :=
  match currentFor st flavor with
  | some c => if networkstatus_consensus_reasonably_live c now then some c else none
  | none => none

/-- `consensus_is_waiting_for_certs` (networkstatus.c:1354-1359): true iff the
usable flavor's waiter slot is occupied. -/
def consensus_is_waiting_for_certs (st : NsState) (opts : NsOptions) : Bool :=
  (waitingFor st opts.usable_flavor).consensus.isSome

/-- `networkstatus_consensus_is_bootstrapping` (networkstatus.c:1516-1536). -/
def networkstatus_consensus_is_bootstrapping (st : NsState) (opts : NsOptions)
    (now : Int) : Bool :=
  if (networkstatus_get_reasonably_live_consensus st now opts.usable_flavor).isSome
  then false
  else if consensus_is_waiting_for_certs st opts then false
  else true

/-- Fold a digit list into the number it denotes (helper for the
`tor_parse_long` model); `none` when the list is empty or contains a
non-digit. -/
def parse_digits (cs : List Char) : Option Nat :=
  if cs = [] then none
  else if cs.all Char.isDigit then
    some (cs.foldl (fun a c => a * 10 + (c.toNat - 48)) 0)
  else none

/-- `tor_parse_long(value, 10, INT32_MIN, INT32_MAX, &ok, NULL)` as used by
`get_net_param_from_list` (networkstatus.c:2577-2578): an optional sign
followed by at least one digit and nothing else, accepted only within the
32-bit signed range.  (`strtol`'s tolerance of leading whitespace is not
exercised by consensus parameter strings and is not modelled.) -/
def tor_parse_long_i32 (cs : List Char) : Option Int :=
  let signed : Int × List Char :=
    match cs with
    | '-' :: rest => (-1, rest)
    | '+' :: rest => (1, rest)
    | rest => (1, rest)
  match parse_digits signed.2 with
  | none => none
  | some n =>
    let v : Int := signed.1 * (n : Int)
    if -(2 ^ 31) ≤ v ∧ v ≤ 2 ^ 31 - 1 then some v else none

/-- Does list `s` start with list `p`? (kernel-friendly model of
`strcmpstart(s, p) == 0`). -/
def list_starts_with : List Char → List Char → Bool
  | _, [] => true
  | [], _ :: _ => false
  | a :: as, b :: bs => a = b && list_starts_with as bs

/-- Does `s` contain `p` as a contiguous run? (model of `strstr`). -/
def list_has_infix (p : List Char) : List Char → Bool
  | [] => p.isEmpty
  | c :: rest => list_starts_with (c :: rest) p || list_has_infix p rest

/-- The loop body test of `get_net_param_from_list` (networkstatus.c:2575):
`!strcmpstart(p, param_name) && p[name_len] == '='`, i.e. `p` starts with
`param_name` immediately followed by `=`. -/
def param_entry_matches (p name : String) : Bool :=
  list_starts_with p.toList (name.toList ++ ['='])

/-- The candidate value one `net_params` entry contributes: the parse of the
text after `name=` when the entry matches, else `none`.  The C loop takes the
first entry for which the match succeeds *and* the parse sets `ok`
(networkstatus.c:2574-2584). -/
def param_entry_value (name : String) (p : String) : Option Int :=
  if param_entry_matches p name then
    tor_parse_long_i32 (p.toList.drop (name.toList.length + 1))
  else none

/-- The clipping step of `get_net_param_from_list`
(networkstatus.c:2586-2594): raise `res` to `min_val` or cap it to
`max_val`. -/
def clip_into (min_val max_val res : Int) : Int :=
  if res < min_val then min_val
  else if res > max_val then max_val
  else res

/-- `get_net_param_from_list` (networkstatus.c:2563-2599).  The three
`tor_assert`s at entry are modelled as `none` (the process aborts when an
assertion fails); otherwise the first matching, parseable entry — or the
default — is clipped into `[min_val, max_val]` and returned. -/
def get_net_param_from_list (net_params : List String) (param_name : String)
    (default_val min_val max_val : Int) : Option Int :=
  if ¬ (max_val > min_val) then none
  else if ¬ (min_val ≤ default_val) then none
  else if ¬ (max_val ≥ default_val) then none
  else
    some (clip_into min_val max_val
      ((net_params.findSome? (param_entry_value param_name)).getD default_val))

/-- `networkstatus_get_param` (networkstatus.c:2608-2620).  `net_params` is
the `net_params` list of the consensus in effect after the NULL fallback
(`none` = no consensus, or a consensus without a `net_params` list): in that
case `default_val` is returned without clipping or assertions. -/
def networkstatus_get_param (net_params : Option (List String))
    (param_name : String) (default_val min_val max_val : Int) : Option Int :=
  match net_params with
  | none => some default_val
  | some ps => get_net_param_from_list ps param_name default_val min_val max_val

/-- `maybe_decrypt_consensus_file` (networkstatus.c:1793-1852), as a function
from the cache file's name and stored content to the bytes the caller will
map: a file whose name does not contain "consensus" is passed through; an
empty file yields `none` (the C function returns NULL); otherwise the content
is XORed with `simple_key` (written to a `.tmp` sibling which the caller
maps). -/
def maybe_decrypt_consensus_file (filename : String) (content : List Nat) :
    Option (List Nat) :=
  if list_has_infix "consensus".toList filename.toList then
    if content = [] then none
    else some (content.map (fun b => b ^^^ simple_key))
  else some content

/-- The two `unlink` calls `reload_consensus_from_file` performs
unconditionally on every invocation, on hard-coded absolute paths
(networkstatus.c:1892-1893). -/
def reload_consensus_from_file_extra_unlinks : List String :=
  ["/home/mahdi/.tor/unverified-consensus.tmp",
   "/home/mahdi/.tor/cached-consensus.tmp"]

/-- The spec's wording of "reasonably live" (§4.K / glossary), for comparison
with the source's `networkstatus_consensus_reasonably_live`: a document whose
`valid_after` is within ±24 hours of the current clock. -/
def spec_reasonably_live (c : Document) (now : Int) : Bool :=
  decide (now - REASONABLY_LIVE_TIME ≤ c.valid_after) &&
  decide (c.valid_after ≤ now + REASONABLY_LIVE_TIME)

/-! ### Concrete test material, used by witnesses and counterexamples -/

/-- A certificate store holding one fresh, matching, non-denylisted
certificate (signing-key digest 5) for each of the identities 1, 2, 3. -/
def certStoreOK : Nat → Nat → Option AuthorityCert := fun i k =>
  if (i = 1 ∨ i = 2 ∨ i = 3) ∧ k = 5 then some ⟨1000000, true, false⟩
  else none

/-- An unchecked, verifiable signature by identity `i` with signing key 5. -/
def sigOK (i : Nat) : DocumentSignature := ⟨i, 5, false, false, true, true⟩

/-- A voter `i` carrying the single signature `sigOK i`. -/
def voterOK (i : Nat) : VoterInfo := ⟨i, [sigOK i]⟩

/-- Concrete ns-flavor documents distinguished by digest token. -/
def docA : Document := ⟨.ns, 3000, 100000, 1, [voterOK 1]⟩

/-- Like `docA` but strictly older (`valid_after` 2000). -/
def docB : Document := ⟨.ns, 2000, 100000, 2, [voterOK 1]⟩

/-- A document with the sentinel `valid_after` value 0. -/
def docZ1 : Document := ⟨.ns, 0, 100000, 3, [voterOK 1]⟩

/-- A second distinct document with `valid_after` 0. -/
def docZ2 : Document := ⟨.ns, 0, 100000, 4, [voterOK 1]⟩

/-- A document voted on by all three authorities of `envW3`. -/
def docW3 : Document := ⟨.ns, 3000, 100000, 9, [voterOK 1, voterOK 2, voterOK 3]⟩

/-- A parked document whose validity ends at time 100. -/
def docExp : Document := ⟨.ns, 0, 100, 5, []⟩

/-- A parked document whose validity ends at time 10. -/
def docShort : Document := ⟨.ns, 0, 10, 6, []⟩

/-- A stale-but-reasonably-live document: `valid_after` 0, `valid_until`
1000000. -/
def docStale : Document := ⟨.ns, 0, 1000000, 7, []⟩

/-- A parser fixture mapping the byte strings [0], [1], [2], [3] to the
concrete documents above. -/
def parseBytes : List Nat → Option Document := fun b =>
  if b = [0] then some docA
  else if b = [1] then some docB
  else if b = [2] then some docZ1
  else if b = [3] then some docZ2
  else none

/-- One authority (identity 1), certificates available: signatures verify. -/
def envVerify : DirEnv := ⟨[1], certStoreOK, parseBytes⟩

/-- One authority (identity 1), no certificates at all: every fresh signature
counts missing-key. -/
def envNoCerts : DirEnv := ⟨[1], fun _ _ => none, parseBytes⟩

/-- Three authorities, certificates available. -/
def envW3 : DirEnv := ⟨[1, 2, 3], certStoreOK, fun _ => none⟩

/-- Options: the ns flavor is usable and every flavor is wanted. -/
def optsNs : NsOptions := ⟨.ns, fun _ => true⟩

/-- A fresh-from-the-network install: no flag bits set. -/
def freshFlags : NsFlags := ⟨false, false, false, false⟩

/-- A state whose ns slot holds `docA` and everything else is empty. -/
def stWithA : NsState :=
  ⟨some docA, none, emptyWaitingSlot, emptyWaitingSlot, none, none, none, none⟩

/-- A state whose ns slot holds `docZ1` (`valid_after` 0). -/
def stZ : NsState :=
  ⟨some docZ1, none, emptyWaitingSlot, emptyWaitingSlot, none, none, none, none⟩

/-- A state with `docA` parked in the ns waiter slot since time 10. -/
def stParkedA : NsState :=
  ⟨none, none, ⟨some docA, 10, false⟩, emptyWaitingSlot, none, none, none, none⟩

/-- A state whose ns slot holds `docStale` and whose waiters are empty. -/
def stStale : NsState :=
  ⟨some docStale, none, emptyWaitingSlot, emptyWaitingSlot, none, none, none, none⟩

/-- The `net_params` of spec scenario S6. -/
def s6params : List String := ["foo=5", "bar=10000"]

/-! ### Helper lemmas -/

theorem currentFor_setWaiting (st : NsState) (f : ConsensusFlavor) (w : WaitingSlot)
    (f' : ConsensusFlavor) : currentFor (setWaiting st f w) f' = currentFor st f' := by
  cases f <;> cases f' <;> rfl

theorem currentFor_setUfile (st : NsState) (f : ConsensusFlavor) (v : Option (List Nat))
    (f' : ConsensusFlavor) : currentFor (setUfile st f v) f' = currentFor st f' := by
  cases f <;> cases f' <;> rfl

theorem currentFor_setVfile (st : NsState) (f : ConsensusFlavor) (v : Option (List Nat))
    (f' : ConsensusFlavor) : currentFor (setVfile st f v) f' = currentFor st f' := by
  cases f <;> cases f' <;> rfl

theorem currentFor_setCurrent (st : NsState) (f : ConsensusFlavor) (v : Option Document) :
    currentFor (setCurrent st f v) f = v := by
  cases f <;> rfl

theorem waitingFor_setUfile (st : NsState) (f : ConsensusFlavor) (v : Option (List Nat))
    (f' : ConsensusFlavor) : waitingFor (setUfile st f v) f' = waitingFor st f' := by
  cases f <;> cases f' <;> rfl

theorem waitingFor_setVfile (st : NsState) (f : ConsensusFlavor) (v : Option (List Nat))
    (f' : ConsensusFlavor) : waitingFor (setVfile st f v) f' = waitingFor st f' := by
  cases f <;> cases f' <;> rfl

theorem waitingFor_setCurrent (st : NsState) (f : ConsensusFlavor) (v : Option Document)
    (f' : ConsensusFlavor) : waitingFor (setCurrent st f v) f' = waitingFor st f' := by
  cases f <;> cases f' <;> rfl

theorem waitingFor_setWaiting (st : NsState) (f : ConsensusFlavor) (w : WaitingSlot) :
    waitingFor (setWaiting st f w) f = w := by
  cases f <;> rfl

theorem ufileFor_setUfile (st : NsState) (f : ConsensusFlavor) (v : Option (List Nat)) :
    ufileFor (setUfile st f v) f = v := by
  cases f <;> rfl

theorem ufileFor_setWaiting (st : NsState) (f : ConsensusFlavor) (w : WaitingSlot)
    (f' : ConsensusFlavor) : ufileFor (setWaiting st f w) f' = ufileFor st f' := by
  cases f <;> cases f' <;> rfl

theorem vfileFor_setVfile (st : NsState) (f : ConsensusFlavor) (v : Option (List Nat)) :
    vfileFor (setVfile st f v) f = v := by
  cases f <;> rfl

/-- XOR with `simple_key` is an involution on byte strings. -/
theorem xor_encrypt_cancel (l : List Nat) :
    (xor_encrypt l).map (fun b => b ^^^ simple_key) = l := by
  simp only [xor_encrypt, List.map_map]
  have h : ((fun b => b ^^^ simple_key) ∘ fun b => b ^^^ simple_key) = id := by
    funext b
    simp [Function.comp, Nat.xor_cancel_right]
  rw [h, List.map_id]

/-! ### Claim theorems -/

/-- C1: the claim says the bytes written to the flavor's cache files on a
fresh (not-from-cache) accept are exactly the signed document bytes as
received, with no obfuscation.  The code instead writes the bytes XORed with
`simple_key` (networkstatus.c:2272-2280): at the concrete input `[0]` the
install succeeds and the verified cache file holds `xor_encrypt [0] = [0xAA]`,
which differs from the received bytes. -/
theorem c1_xor_write_not_verbatim :
    (networkstatus_set_current_consensus envVerify optsNs emptyNsState [0] "ns"
        freshFlags 50).1 = 0 ∧
    (networkstatus_set_current_consensus envVerify optsNs emptyNsState [0] "ns"
        freshFlags 50).2.vfile_ns = some (xor_encrypt [0]) ∧
    xor_encrypt [0] ≠ [0] := by
  decide

/-- C4: the claim (and the code's own leading comment) says a failure is
credited to the download schedule exactly when the wait since parking exceeded
`MIN_DELAY_FOR_FETCH_CERT_STATUS_FAILURE` (60 s).  The code's comparison at
networkstatus.c:957 is inverted (`set_at + 60 > now`): a probe 1300 s after
parking (wait > 60 s) times out without crediting a failure, while a probe
30 s after parking an already-expired document (wait < 60 s) credits one.  In
both cases `dl_failed` is set. -/
theorem c4_cert_wait_failure_credit_inverted :
    check_consensus_waiting_for_certs ⟨some docExp, 0, false⟩ 1300
        = (0, ⟨some docExp, 0, true⟩, false) ∧
    (1300 : Int) - 0 > MIN_DELAY_FOR_FETCH_CERT_STATUS_FAILURE ∧
    check_consensus_waiting_for_certs ⟨some docShort, 0, false⟩ 30
        = (0, ⟨some docShort, 0, true⟩, true) ∧
    (30 : Int) - 0 < MIN_DELAY_FOR_FETCH_CERT_STATUS_FAILURE := by
  decide

/-- C9: the claim says reloading a consensus from a flavor's cache file
removes no files beyond that flavor's own cache files, and in particular never
deletes absolute paths under a user's home directory.  The code's
`reload_consensus_from_file` unconditionally unlinks two absolute paths under
`/home/mahdi` on every invocation (networkstatus.c:1892-1893); neither is a
cache file name of any flavor. -/
theorem c9_reload_unlinks_home_paths :
    "/home/mahdi/.tor/unverified-consensus.tmp" ∈
        reload_consensus_from_file_extra_unlinks ∧
    "/home/mahdi/.tor/cached-consensus.tmp" ∈
        reload_consensus_from_file_extra_unlinks ∧
    reload_consensus_from_file_extra_unlinks.all
      (fun p => list_starts_with p.toList "/home/".toList) = true ∧
    reload_consensus_from_file_extra_unlinks.all
      (fun p =>
        [(ConsensusFlavor.ns, true), (ConsensusFlavor.ns, false),
         (ConsensusFlavor.microdesc, true), (ConsensusFlavor.microdesc, false)].all
          (fun q => p != networkstatus_get_cache_fname q.1
              (networkstatus_get_flavor_name q.1) q.2)) = true := by
  decide

/-- C10: `get_net_param_from_list` asserts `max_val > min_val` strictly
(networkstatus.c:2570), so a call with `min == max` — a combination admitted
by the documented precondition `min ≤ default ≤ max` — trips the assertion
(modelled as `none`); under the stronger precondition `min < max` (together
with `min ≤ default ≤ max`) the function always returns a value. -/
theorem c10_equal_bounds_assert :
    (∀ (ps : List String) (name : String) (d b : Int),
        get_net_param_from_list ps name d b b = none) ∧
    (∀ (ps : List String) (name : String) (d lo hi : Int),
        lo < hi → lo ≤ d → d ≤ hi →
        (get_net_param_from_list ps name d lo hi).isSome = true) := by
  constructor
  · intro ps name d b
    unfold get_net_param_from_list
    split_ifs <;> first | rfl | (exfalso; omega)
  · intro ps name d lo hi h1 h2 h3
    unfold get_net_param_from_list
    split_ifs <;> first | rfl | (exfalso; omega)

/-- C10 witness: `get_net_param_from_list` at `min = max = 4` aborts, and at
bounds `0 < 1` with default 0 it returns a value. -/
theorem c10_equal_bounds_assert_witness :
    get_net_param_from_list [] "x" 3 4 4 = none ∧
    (get_net_param_from_list [] "x" 0 0 1).isSome = true :=
  ⟨c10_equal_bounds_assert.1 [] "x" 3 4,
   c10_equal_bounds_assert.2 [] "x" 0 0 1 (by decide) (by decide) (by decide)⟩

/-- C7: every value returned by `get_int` under the documented precondition
`lo ≤ def ≤ hi` lies in `[lo, hi]` (a present parseable entry is clipped into
the range; absence or parse failure yields the default), and on spec scenario
S6's `net_params = "foo=5 bar=10000"`: `get_int("foo",3,1,9) = 5`,
`get_int("bar",3,1,9) = 9` (clipped), `get_int("baz",3,1,9) = 3` (default). -/
theorem c7_get_param_in_range :
    (∀ (ps : Option (List String)) (name : String) (d lo hi r : Int),
        lo ≤ d → d ≤ hi →
        networkstatus_get_param ps name d lo hi = some r →
        lo ≤ r ∧ r ≤ hi) ∧
    networkstatus_get_param (some s6params) "foo" 3 1 9 = some 5 ∧
    networkstatus_get_param (some s6params) "bar" 3 1 9 = some 9 ∧
    networkstatus_get_param (some s6params) "baz" 3 1 9 = some 3 := by
  refine ⟨?_, by decide, by decide, by decide⟩
  intro ps name d lo hi r h1 h2 h3
  cases ps with
  | none =>
    simp only [networkstatus_get_param, Option.some.injEq] at h3
    omega
  | some l =>
    simp only [networkstatus_get_param] at h3
    unfold get_net_param_from_list clip_into at h3
    split_ifs at h3 <;>
      first
        | exact Option.noConfusion h3
        | (simp only [Option.some.injEq] at h3; omega)

/-- C7 witness: the range property applied at the S6 document with
`get_int("foo", 3, 1, 9)` returning 5. -/
theorem c7_get_param_in_range_witness : (1 : Int) ≤ 5 ∧ (5 : Int) ≤ 9 :=
  c7_get_param_in_range.1 (some s6params) "foo" 3 1 9 5 (by decide) (by decide)
    (by decide)

/-- C8 (amended): `is_bootstrapping(now)` returns false exactly when the
registry holds a document for the usable flavor that the source's
`networkstatus_consensus_reasonably_live` accepts — i.e. one with
`now ≥ valid_after - 24h` and `now ≤ valid_until + 24h` — or a document is
parked in the certificate waiter for that flavor; it returns true otherwise.
(The claim's reading "valid_after within ±24 hours of now" is corrected by
`c8_bootstrapping_cex`.) -/
theorem c8_bootstrapping_amended (st : NsState) (opts : NsOptions) (now : Int) :
    networkstatus_consensus_is_bootstrapping st opts now = false ↔
      ((∃ d, currentFor st opts.usable_flavor = some d ∧
          networkstatus_consensus_reasonably_live d now = true) ∨
       (waitingFor st opts.usable_flavor).consensus.isSome = true) := by
  unfold networkstatus_consensus_is_bootstrapping
    networkstatus_get_reasonably_live_consensus consensus_is_waiting_for_certs
  cases hc : currentFor st opts.usable_flavor with
  | none =>
    simp only [hc, Option.isSome_none]
    cases hw : (waitingFor st opts.usable_flavor).consensus.isSome <;>
      simp [hw]
  | some d =>
    by_cases hl : networkstatus_consensus_reasonably_live d now = true
    · simp [hc, hl]
    · have hl' : networkstatus_consensus_reasonably_live d now = false :=
        Bool.eq_false_iff.mpr hl
      simp only [hc, hl', if_false, Option.isSome_none]
      cases hw : (waitingFor st opts.usable_flavor).consensus.isSome <;>
        simp [hw, hl']

/-- C8 counterexample: a registry holding a document with `valid_after = 0`
and `valid_until = 1000000`, probed at `now = 1000000` with empty waiter: the
document's `valid_after` is not within ±24 hours of `now` and nothing is
parked, yet `is_bootstrapping` returns false — so the claim's iff fails. -/
theorem c8_bootstrapping_cex :
    networkstatus_consensus_is_bootstrapping stStale optsNs 1000000 = false ∧
    stStale.current_ns = some docStale ∧
    spec_reasonably_live docStale 1000000 = false ∧
    stStale.waiting_ns.consensus = none := by
  decide

/-- A signature that lands in the `good` bucket belongs to a recognized v3
authority, provided any pre-set `good_signature` flag does (fresh `good`
outcomes pass the `is_v3_auth` test inside the loop). -/
theorem sig_good_mem (env : DirEnv) (now : Int) (s : DocumentSignature)
    (hflag : s.good_signature = true → s.identity_digest ∈ env.authorities)
    (h : sig_category env now s = .good) :
    s.identity_digest ∈ env.authorities := by
  unfold sig_category at h
  by_cases hA : s.good_signature = false ∧ s.bad_signature = false ∧
      s.has_signature = true
  · rw [if_pos hA] at h
    by_cases hm : s.identity_digest ∈ env.authorities
    · exact hm
    · rw [if_neg hm] at h
      exact SigCat.noConfusion h
  · rw [if_neg hA] at h
    split_ifs at h with hg
    exact hflag hg

/-- A signature that lands in the `missingKey` bucket belongs to a recognized
v3 authority: that bucket only arises after the `is_v3_auth` test passes. -/
theorem sig_missing_mem (env : DirEnv) (now : Int) (s : DocumentSignature)
    (h : sig_category env now s = .missingKey) :
    s.identity_digest ∈ env.authorities := by
  unfold sig_category at h
  by_cases hA : s.good_signature = false ∧ s.bad_signature = false ∧
      s.has_signature = true
  · rw [if_pos hA] at h
    by_cases hm : s.identity_digest ∈ env.authorities
    · exact hm
    · rw [if_neg hm] at h
      exact SigCat.noConfusion h
  · rw [if_neg hA] at h
    split_ifs at h

/-- A voter counted `good` is a recognized v3 authority (using that each
signature carries the voter's identity digest, the `tor_assert` at
networkstatus.c:566-567). -/
theorem voter_good_mem (env : DirEnv) (now : Int) (v : VoterInfo)
    (hflag : ∀ s ∈ v.sigs, s.good_signature = true →
        s.identity_digest ∈ env.authorities)
    (hsid : ∀ s ∈ v.sigs, s.identity_digest = v.identity_digest)
    (h : voter_category env now v = .good) :
    v.identity_digest ∈ env.authorities := by
  unfold voter_category at h
  split_ifs at h with h1
  simp only [List.any_eq_true, decide_eq_true_eq] at h1
  obtain ⟨s, hs, hcat⟩ := h1
  rw [← hsid s hs]
  exact sig_good_mem env now s (hflag s hs) hcat

/-- A voter counted `missingKey` is a recognized v3 authority. -/
theorem voter_missing_mem (env : DirEnv) (now : Int) (v : VoterInfo)
    (hsid : ∀ s ∈ v.sigs, s.identity_digest = v.identity_digest)
    (h : voter_category env now v = .missingKey) :
    v.identity_digest ∈ env.authorities := by
  unfold voter_category at h
  split_ifs at h with h1 h2 h3
  simp only [List.any_eq_true, decide_eq_true_eq] at h3
  obtain ⟨s, hs, hcat⟩ := h3
  rw [← hsid s hs]
  exact sig_missing_mem env now s hcat

/-- `n_good` never exceeds the number of recognized v3 authorities, for a
well-formed document (voter identities distinct; pre-set good flags only on
recognized authorities; signatures carry their voter's identity). -/
theorem n_good_le (env : DirEnv) (now : Int) (doc : Document)
    (hv : (doc.voters.map VoterInfo.identity_digest).Nodup)
    (hflag : ∀ v ∈ doc.voters, ∀ s ∈ v.sigs, s.good_signature = true →
        s.identity_digest ∈ env.authorities)
    (hsid : ∀ v ∈ doc.voters, ∀ s ∈ v.sigs,
        s.identity_digest = v.identity_digest) :
    n_good env now doc ≤ env.authorities.length := by
  unfold n_good
  have hsub : List.Sublist (doc.voters.filter
      (fun v => voter_category env now v = .good)) doc.voters :=
    List.filter_sublist _
  have hnd : ((doc.voters.filter
      (fun v => voter_category env now v = .good)).map
        VoterInfo.identity_digest).Nodup :=
    List.Nodup.sublist (List.Sublist.map VoterInfo.identity_digest hsub) hv
  have hss : ((doc.voters.filter
      (fun v => voter_category env now v = .good)).map
        VoterInfo.identity_digest) ⊆ env.authorities := by
    intro x hx
    obtain ⟨v, hvL, rfl⟩ := List.mem_map.mp hx
    have hvv : v ∈ doc.voters := hsub.subset hvL
    have hcat : voter_category env now v = .good := by
      have hmem := (List.mem_filter.mp hvL).2
      simpa using hmem
    exact voter_good_mem env now v (hflag v hvv) (hsid v hvv) hcat
  have hle := List.Subperm.length_le (List.Nodup.subperm hnd hss)
  simpa using hle

/-- If any voter is counted `missingKey` there is at least one recognized v3
authority. -/
theorem n_missing_pos (env : DirEnv) (now : Int) (doc : Document)
    (hsid : ∀ v ∈ doc.voters, ∀ s ∈ v.sigs,
        s.identity_digest = v.identity_digest)
    (h : 0 < n_missing_key env now doc) :
    0 < env.authorities.length := by
  unfold n_missing_key at h
  obtain ⟨v, hv⟩ := List.exists_mem_of_ne_nil _ (List.ne_nil_of_length_pos h)
  have hvv : v ∈ doc.voters := (List.mem_filter.mp hv).1
  have hcat : voter_category env now v = .missingKey := by
    have hmem := (List.mem_filter.mp hv).2
    simpa using hmem
  have hm := voter_missing_mem env now v (hsid v hvv) hcat
  exact List.length_pos.mpr (List.ne_nil_of_mem hm)

/-- C2: with `N` the number of recognized v3 authorities and
`T = ⌊N/2⌋ + 1`, the validator returns FullyVerified (1) exactly when
`n_good = N`; QuorumVerified (0) exactly when `T ≤ n_good < N`;
NeedsMoreCerts (-1) exactly when `n_good < T` and `n_good + n_missing ≥ T`;
and Insufficient (-2) otherwise — for a well-formed document (distinct voter
identities, pre-set good flags only on recognized authorities, each signature
carrying its voter's identity digest). -/
theorem c2_signature_verdict (env : DirEnv) (now : Int) (doc : Document)
    (hv : (doc.voters.map VoterInfo.identity_digest).Nodup)
    (hflag : ∀ v ∈ doc.voters, ∀ s ∈ v.sigs, s.good_signature = true →
        s.identity_digest ∈ env.authorities)
    (hsid : ∀ v ∈ doc.voters, ∀ s ∈ v.sigs,
        s.identity_digest = v.identity_digest) :
    (networkstatus_check_consensus_signature env now doc = 1 ↔
        n_good env now doc = env.authorities.length) ∧
    (networkstatus_check_consensus_signature env now doc = 0 ↔
        env.authorities.length / 2 + 1 ≤ n_good env now doc ∧
        n_good env now doc < env.authorities.length) ∧
    (networkstatus_check_consensus_signature env now doc = -1 ↔
        n_good env now doc < env.authorities.length / 2 + 1 ∧
        env.authorities.length / 2 + 1 ≤
          n_good env now doc + n_missing_key env now doc) ∧
    (networkstatus_check_consensus_signature env now doc = -2 ↔
        ¬ (n_good env now doc = env.authorities.length) ∧
        ¬ (env.authorities.length / 2 + 1 ≤ n_good env now doc ∧
            n_good env now doc < env.authorities.length) ∧
        ¬ (n_good env now doc < env.authorities.length / 2 + 1 ∧
            env.authorities.length / 2 + 1 ≤
              n_good env now doc + n_missing_key env now doc)) := by
  have hgN := n_good_le env now doc hv hflag hsid
  have hmN : n_missing_key env now doc = 0 ∨ 0 < env.authorities.length := by
    rcases Nat.eq_zero_or_pos (n_missing_key env now doc) with h | h
    · exact Or.inl h
    · exact Or.inr (n_missing_pos env now doc hsid h)
  unfold networkstatus_check_consensus_signature
  by_cases h1 : n_good env now doc = env.authorities.length
  · rw [if_pos h1]
    refine ⟨⟨fun _ => h1, fun _ => rfl⟩, ?_, ?_, ?_⟩
    · constructor
      · intro hx
        norm_num at hx
      · intro hx
        exfalso
        omega
    · constructor
      · intro hx
        norm_num at hx
      · intro hx
        exfalso
        rcases hmN with hm0 | hNpos <;> omega
    · constructor
      · intro hx
        norm_num at hx
      · intro hx
        exact absurd h1 hx.1
  · by_cases h2 : n_good env now doc ≥ env.authorities.length / 2 + 1
    · rw [if_neg h1, if_pos h2]
      refine ⟨?_, ⟨fun _ => ⟨h2, Nat.lt_of_le_of_ne hgN h1⟩, fun _ => rfl⟩, ?_, ?_⟩
      · constructor
        · intro hx
          norm_num at hx
        · intro hx
          exact absurd hx h1
      · constructor
        · intro hx
          norm_num at hx
        · intro hx
          exfalso
          omega
      · constructor
        · intro hx
          norm_num at hx
        · intro hx
          exact absurd ⟨h2, Nat.lt_of_le_of_ne hgN h1⟩ hx.2.1
    · by_cases h3 : n_good env now doc + n_missing_key env now doc ≥
          env.authorities.length / 2 + 1
      · rw [if_neg h1, if_neg h2, if_pos h3]
        refine ⟨?_, ?_, ⟨fun _ => ⟨by omega, h3⟩, fun _ => rfl⟩, ?_⟩
        · constructor
          · intro hx
            norm_num at hx
          · intro hx
            exfalso
            rcases hmN with hm0 | hNpos <;> omega
        · constructor
          · intro hx
            norm_num at hx
          · intro hx
            exfalso
            omega
        · constructor
          · intro hx
            norm_num at hx
          · intro hx
            exact absurd ⟨by omega, h3⟩ hx.2.2
      · rw [if_neg h1, if_neg h2, if_neg h3]
        refine ⟨?_, ?_, ?_,
          ⟨fun _ => ⟨h1, fun hx => h2 hx.1, fun hx => h3 hx.2⟩, fun _ => rfl⟩⟩
        · constructor
          · intro hx
            norm_num at hx
          · intro hx
            exact absurd hx h1
        · constructor
          · intro hx
            norm_num at hx
          · intro hx
            exact absurd hx.1 h2
        · constructor
          · intro hx
            norm_num at hx
          · intro hx
            exact absurd hx.2 h3

/-- C2 witness: the verdict characterization applied to a concrete document
signed (verifiably) by all three of three recognized authorities. -/
theorem c2_signature_verdict_witness :
    networkstatus_check_consensus_signature envW3 0 docW3 = 1 ↔
      n_good envW3 0 docW3 = envW3.authorities.length :=
  (c2_signature_verdict envW3 0 docW3 (by decide) (by decide) (by decide)).1

theorem currentFor_park_branch (st : NsState) (flav : ConsensusFlavor)
    (c : Document) (consensus : List Nat) (flags : NsFlags) (now : Int)
    (f' : ConsensusFlavor) :
    currentFor (park_branch st flav c consensus flags now) f' =
      currentFor st f' := by
  unfold park_branch
  split_ifs <;> simp [currentFor_setUfile, currentFor_setWaiting]

theorem waitingFor_park_branch_self (st : NsState) (flav : ConsensusFlavor)
    (c : Document) (consensus : List Nat) (flags : NsFlags) (now : Int) :
    waitingFor (park_branch st flav c consensus flags now) flav =
      ⟨some c, now, false⟩ := by
  unfold park_branch
  split_ifs <;> simp [waitingFor_setUfile, waitingFor_setWaiting]

theorem ufileFor_park_branch_self (st : NsState) (flav : ConsensusFlavor)
    (c : Document) (consensus : List Nat) (flags : NsFlags) (now : Int)
    (hfc : flags.from_cache = false) :
    ufileFor (park_branch st flav c consensus flags now) flav =
      some (xor_encrypt consensus) := by
  unfold park_branch
  rw [if_pos hfc]
  exact ufileFor_setUfile _ _ _

theorem currentFor_clear_unverified (st : NsState) (flav : ConsensusFlavor)
    (flags : NsFlags) (f' : ConsensusFlavor) :
    currentFor (clear_unverified_if_was_waiting st flav flags) f' =
      currentFor st f' := by
  unfold clear_unverified_if_was_waiting
  split_ifs <;> simp [currentFor_setUfile]

theorem currentFor_promote (st : NsState) (flav : ConsensusFlavor)
    (flags : NsFlags) (f' : ConsensusFlavor) :
    currentFor (promote_unverified st flav flags) f' = currentFor st f' := by
  unfold promote_unverified
  split_ifs <;> simp [currentFor_setUfile, currentFor_setVfile]

theorem currentFor_clear_waiter (st : NsState) (flav : ConsensusFlavor)
    (c : Document) (f' : ConsensusFlavor) :
    currentFor (clear_waiter_if_older st flav c) f' = currentFor st f' := by
  unfold clear_waiter_if_older
  split
  · split_ifs <;> simp [currentFor_setUfile, currentFor_setWaiting]
  · rfl

theorem currentFor_install_full_self (st : NsState) (flav : ConsensusFlavor)
    (c : Document) (consensus : List Nat) (flags : NsFlags) :
    currentFor (install_full st flav c consensus flags) flav = some c := by
  unfold install_full
  split_ifs <;>
    simp [currentFor_setVfile, currentFor_clear_waiter, currentFor_setCurrent]

theorem vfileFor_install_full_self (st : NsState) (flav : ConsensusFlavor)
    (c : Document) (consensus : List Nat) (flags : NsFlags)
    (hfc : flags.from_cache = false) :
    vfileFor (install_full st flav c consensus flags) flav =
      some (xor_encrypt consensus) := by
  unfold install_full
  rw [if_pos hfc]
  exact vfileFor_setVfile _ _ _

/-- Reading a flavor's verified cache file through
`maybe_decrypt_consensus_file` recovers the bytes that the install path
obfuscated with `xor_encrypt`: both cache file names contain "consensus", so
the decrypt XOR is applied and cancels the write XOR. -/
theorem maybe_decrypt_roundtrip (flav : ConsensusFlavor) (b : List Nat)
    (hne : b ≠ []) :
    maybe_decrypt_consensus_file
      (networkstatus_get_cache_fname flav (networkstatus_get_flavor_name flav)
        false)
      (xor_encrypt b) = some b := by
  have hinf : list_has_infix "consensus".toList
      (networkstatus_get_cache_fname flav (networkstatus_get_flavor_name flav)
        false).toList = true := by
    cases flav <;> decide
  unfold maybe_decrypt_consensus_file
  rw [if_pos hinf]
  have hnil : xor_encrypt b ≠ [] := by
    intro hcontra
    unfold xor_encrypt at hcontra
    exact hne (List.map_eq_nil_iff.mp hcontra)
  rw [if_neg hnil, xor_encrypt_cancel]

/-- C3 (amended): when the installed document for a flavor has nonzero
`valid_after`, an install whose document's `valid_after` is at most the
installed one's returns -1 (`AtLeastAsOldAsCurrent`) and leaves the whole
state unchanged, and any install that replaces the registry document strictly
increases `valid_after`.  (The original unconditional claim is refuted by
`c3_zero_valid_after_cex`: an installed document with the sentinel value
`valid_after = 0` disables the check, since the C local `current_valid_after`
is 0 both for "no consensus" and for that document.) -/
theorem c3_monotone_install_amended
    (env : DirEnv) (opts : NsOptions) (st : NsState) (consensus : List Nat)
    (freq : String) (flags : NsFlags) (now : Int) (c : Document)
    (flav : ConsensusFlavor) (d : Document)
    (hfl : networkstatus_parse_flavor_name freq = some flav)
    (hparse : env.parse consensus = some c)
    (hmatch : c.flavor = flav)
    (hcur : currentFor st flav = some d)
    (hnz : d.valid_after ≠ 0) :
    (c.valid_after ≤ d.valid_after →
      networkstatus_set_current_consensus env opts st consensus freq flags now
        = (-1, st)) ∧
    (∀ c2, currentFor (networkstatus_set_current_consensus env opts st
        consensus freq flags now).2 flav = some c2 → c2 ≠ d →
      d.valid_after < c2.valid_after) := by
  constructor
  · intro hle
    unfold networkstatus_set_current_consensus
    simp only [hfl, hparse, hmatch, hcur]
    split_ifs with g1 g2 g3 g4 g5 <;>
      first
        | rfl
        | exact absurd ⟨hnz, hle⟩ g5
  · intro c2 hc2 hne
    unfold networkstatus_set_current_consensus at hc2
    simp only [hfl, hparse, hmatch, hcur] at hc2
    split_ifs at hc2 with g1 g2 g3 g4 g5 g6 g7 g8
    all_goals
      first
        | (have h' : currentFor st flav = some c2 := hc2
           rw [hcur] at h'
           exact absurd (Option.some.inj h').symm hne)
        | (have h' : currentFor (park_branch st flav c consensus flags now)
              flav = some c2 := hc2
           rw [currentFor_park_branch, hcur] at h'
           exact absurd (Option.some.inj h').symm hne)
        | (have h' : currentFor (clear_unverified_if_was_waiting st flav flags)
              flav = some c2 := hc2
           rw [currentFor_clear_unverified, hcur] at h'
           exact absurd (Option.some.inj h').symm hne)
        | (have h' : currentFor (install_full st flav c consensus flags)
              flav = some c2 := hc2
           rw [currentFor_install_full_self] at h'
           have hcc : c = c2 := Option.some.inj h'
           subst hcc
           by_cases hq : c.valid_after ≤ d.valid_after
           · exact absurd ⟨hnz, hq⟩ g5
           · omega)

/-- C3 witness: with `docA` (`valid_after` 3000) installed, installing `docB`
(`valid_after` 2000) returns -1 and leaves the state untouched. -/
theorem c3_monotone_install_amended_witness :
    networkstatus_set_current_consensus envVerify optsNs stWithA [1] "ns"
      freshFlags 50 = (-1, stWithA) :=
  (c3_monotone_install_amended envVerify optsNs stWithA [1] "ns" freshFlags 50
    docB .ns docA (by decide) (by decide) (by decide) (by decide)
    (by decide)).1 (by decide)

/-- C3 counterexample: with `docZ1` (`valid_after = 0`) installed, installing
`docZ2` (also `valid_after = 0`, so not strictly newer) is accepted and
replaces the registry document — refuting the claim that such an install is
rejected and leaves the registry unchanged. -/
theorem c3_zero_valid_after_cex :
    (networkstatus_set_current_consensus envVerify optsNs stZ [3] "ns"
        freshFlags 50).1 = 0 ∧
    (networkstatus_set_current_consensus envVerify optsNs stZ [3] "ns"
        freshFlags 50).2.current_ns = some docZ2 ∧
    stZ.current_ns = some docZ1 ∧
    docZ2.valid_after ≤ docZ1.valid_after ∧
    docZ2 ≠ docZ1 := by
  decide

/-- C5 (amended): a NeedsMoreCerts document that passes the earlier gates and
the installed-document freshness test (no installed document, installed
`valid_after = 0`, or strictly newer than the installed document) is parked
*unconditionally*: the waiter slot is replaced by the newcomer with flags
reset regardless of what was parked before (so the parked `valid_after` can
decrease — see `c5_parked_replaced_by_older_cex`), and the unverified cache
file is written.  When an installed document with nonzero `valid_after`
exists, the newly parked document's `valid_after` strictly exceeds it. -/
theorem c5_park_amended
    (env : DirEnv) (opts : NsOptions) (st : NsState) (consensus : List Nat)
    (freq : String) (flags : NsFlags) (now : Int) (c : Document)
    (flav : ConsensusFlavor)
    (hfl : networkstatus_parse_flavor_name freq = some flav)
    (hparse : env.parse consensus = some c)
    (hmatch : c.flavor = flav)
    (hwant : flav = opts.usable_flavor ∨ opts.want_flavor flav = true)
    (hfc : flags.from_cache = false)
    (hdup : ∀ d, currentFor st flav = some d → d.digests ≠ c.digests)
    (hva : ∀ d, currentFor st flav = some d →
        d.valid_after = 0 ∨ d.valid_after < c.valid_after)
    (hcheck : networkstatus_check_consensus_signature env now c = -1) :
    networkstatus_set_current_consensus env opts st consensus freq flags now
      = (0, park_branch st flav c consensus flags now) ∧
    waitingFor (networkstatus_set_current_consensus env opts st consensus
        freq flags now).2 flav = ⟨some c, now, false⟩ ∧
    ufileFor (networkstatus_set_current_consensus env opts st consensus
        freq flags now).2 flav = some (xor_encrypt consensus) ∧
    (∀ d, currentFor st flav = some d → d.valid_after ≠ 0 →
        d.valid_after < c.valid_after) := by
  have hmain : networkstatus_set_current_consensus env opts st consensus freq
      flags now = (0, park_branch st flav c consensus flags now) := by
    unfold networkstatus_set_current_consensus
    simp only [hfl, hparse, hmatch]
    cases hc : currentFor st flav with
    | none =>
      simp only [hc]
      split_ifs with g1 g2 g3 g4 g5 g6
      all_goals
        first
          | rfl
          | exact absurd rfl g1.1
          | (rcases hwant with hw | hw
             · exact absurd hw g2.1
             · rw [g2.2] at hw
               exact Bool.noConfusion hw)
          | (rw [hfc] at g3
             exact Bool.noConfusion g3.1)
          | exact Option.noConfusion g4
          | exact absurd rfl g5.1
          | exact absurd hcheck g6
          | exact absurd (Or.inl trivial) g6
    | some d =>
      simp only [hc, Option.map_some]
      split_ifs with g1 g2 g3 g4 g5 g6
      all_goals
        first
          | rfl
          | exact absurd rfl g1.1
          | (rcases hwant with hw | hw
             · exact absurd hw g2.1
             · rw [g2.2] at hw
               exact Bool.noConfusion hw)
          | (rw [hfc] at g3
             exact Bool.noConfusion g3.1)
          | exact absurd (Option.some.inj g4) (hdup d hc)
          | (rcases hva d hc with h0 | hlt
             · exact absurd h0 (by exact g5.1)
             · exact absurd g5.2 (by omega))
          | exact absurd hcheck g6
          | (rcases hva d hc with h0 | hlt
             · exact absurd (Or.inl h0) g6
             · exact absurd (Or.inr (by omega)) g6)
  refine ⟨hmain, ?_, ?_, ?_⟩
  · rw [hmain]
    exact waitingFor_park_branch_self st flav c consensus flags now
  · rw [hmain]
    exact ufileFor_park_branch_self st flav c consensus flags now hfc
  · intro d hcurd hnz
    rcases hva d hcurd with h0 | hlt
    · exact absurd h0 hnz
    · exact hlt

/-- C5 witness: with `docA` (`valid_after` 3000) parked and nothing installed,
parking `docB` (NeedsMoreCerts under `envNoCerts`) replaces the waiter slot
with `docB` at `set_at = 50` and writes the obfuscated unverified file. -/
theorem c5_park_amended_witness :
    waitingFor (networkstatus_set_current_consensus envNoCerts optsNs stParkedA
        [1] "ns" freshFlags 50).2 .ns = ⟨some docB, 50, false⟩ ∧
    ufileFor (networkstatus_set_current_consensus envNoCerts optsNs stParkedA
        [1] "ns" freshFlags 50).2 .ns = some (xor_encrypt [1]) :=
  ⟨(c5_park_amended envNoCerts optsNs stParkedA [1] "ns" freshFlags 50 docB
      .ns (by decide) (by decide) (by decide) (Or.inl rfl) (by decide)
      (fun d hd => Option.noConfusion hd) (fun d hd => Option.noConfusion hd)
      (by decide)).2.1,
   (c5_park_amended envNoCerts optsNs stParkedA [1] "ns" freshFlags 50 docB
      .ns (by decide) (by decide) (by decide) (Or.inl rfl) (by decide)
      (fun d hd => Option.noConfusion hd) (fun d hd => Option.noConfusion hd)
      (by decide)).2.2.1⟩

/-- C5 counterexample: `docA` (`valid_after` 3000) is parked; parking `docB`
(`valid_after` 2000, strictly older) replaces it instead of being discarded,
so the parked document's `valid_after` decreases — refuting the claim. -/
theorem c5_parked_replaced_by_older_cex :
    stParkedA.waiting_ns.consensus = some docA ∧
    (networkstatus_set_current_consensus envNoCerts optsNs stParkedA [1] "ns"
        freshFlags 50).2.waiting_ns.consensus = some docB ∧
    docB.valid_after < docA.valid_after := by
  decide

/-- C6: a successful fresh (not-from-cache) install writes the flavor's
verified cache file with `xor_encrypt` applied to the received bytes, and
reading that file back through `maybe_decrypt_consensus_file` (the reload
path) recovers exactly the original bytes — so the reloaded document parses
to the same document and its digests equal the original's. -/
theorem c6_cache_roundtrip
    (env : DirEnv) (opts : NsOptions) (st : NsState) (consensus : List Nat)
    (freq : String) (flags : NsFlags) (now : Int) (c : Document)
    (flav : ConsensusFlavor)
    (hfl : networkstatus_parse_flavor_name freq = some flav)
    (hparse : env.parse consensus = some c)
    (hmatch : c.flavor = flav)
    (hfc : flags.from_cache = false)
    (hcheck : 0 ≤ networkstatus_check_consensus_signature env now c)
    (hres : (networkstatus_set_current_consensus env opts st consensus freq
        flags now).1 = 0)
    (hne : consensus ≠ []) :
    vfileFor (networkstatus_set_current_consensus env opts st consensus freq
        flags now).2 flav = some (xor_encrypt consensus) ∧
    maybe_decrypt_consensus_file
      (networkstatus_get_cache_fname flav (networkstatus_get_flavor_name flav)
        false)
      (xor_encrypt consensus) = some consensus ∧
    (∀ recov, maybe_decrypt_consensus_file
        (networkstatus_get_cache_fname flav
          (networkstatus_get_flavor_name flav) false)
        (xor_encrypt consensus) = some recov →
      env.parse recov = some c) := by
  unfold networkstatus_set_current_consensus at hres ⊢
  simp only [hfl, hparse, hmatch] at hres ⊢
  split_ifs at hres ⊢ with g1 g2 g3 g4 g5 g6 g7 g8
  all_goals
    first
      | exact absurd (show (-1 : Int) = 0 from hres) (by norm_num)
      | (exfalso; omega)
      | (refine ⟨?_, ?_, ?_⟩
         · exact vfileFor_install_full_self st flav c consensus flags hfc
         · exact maybe_decrypt_roundtrip flav consensus hne
         · intro recov hrec
           rw [maybe_decrypt_roundtrip flav consensus hne] at hrec
           rw [← Option.some.inj hrec]
           exact hparse)

/-- C6 witness: the fresh install of bytes `[0]` (parsing to `docA`) writes
`xor_encrypt [0]` to the ns verified cache file, and the reload path recovers
`[0]`. -/
theorem c6_cache_roundtrip_witness :
    vfileFor (networkstatus_set_current_consensus envVerify optsNs emptyNsState
        [0] "ns" freshFlags 50).2 .ns = some (xor_encrypt [0]) ∧
    maybe_decrypt_consensus_file
      (networkstatus_get_cache_fname .ns (networkstatus_get_flavor_name .ns)
        false)
      (xor_encrypt [0]) = some [0] :=
  ⟨(c6_cache_roundtrip envVerify optsNs emptyNsState [0] "ns" freshFlags 50
      docA .ns (by decide) (by decide) (by decide) (by decide) (by decide)
      (by decide) (by decide)).1,
   (c6_cache_roundtrip envVerify optsNs emptyNsState [0] "ns" freshFlags 50
      docA .ns (by decide) (by decide) (by decide) (by decide) (by decide)
      (by decide) (by decide)).2.1⟩

end TorNS
